import Mathlib

/-!
Shallow embedding of the first-person camera controller in
`src/js/main.js` (the `THREE.KeyControls` revision with collision
probing, i.e. the functions `onKeyDown`, `onKeyUp`, `translateView`,
`getCollideableObjects`, `translateViewZ`, `translateViewX`,
`rotateView`, `updateView`).

Numbers are modelled as exact rationals.  The camera handle (position +
quaternion), which the spec treats as an external collaborator, is kept
inside the controller state; `camera.lookAt` is an external three.js
operation and is abstracted as a parameter `lookAtQ`.  The three.js
`Raycaster` is likewise external; its range semantics are modelled from
the spec (hits are intersections whose ray distance lies in
`[near, far]`, and degenerate zero-length directions yield no hits).
-/

/-- Exact-rational 3D vector, modelling `THREE.Vector3`. -/
structure Vec3 where
  x : ℚ
  y : ℚ
  z : ℚ
deriving DecidableEq

def Vec3.zero : Vec3 := ⟨0, 0, 0⟩

def Vec3.add (a b : Vec3) : Vec3 := ⟨a.x + b.x, a.y + b.y, a.z + b.z⟩

def Vec3.smul (c : ℚ) (v : Vec3) : Vec3 := ⟨c * v.x, c * v.y, c * v.z⟩

/-- Cross product, `THREE.Vector3.cross`. -/
def Vec3.cross (a b : Vec3) : Vec3 :=
  ⟨a.y * b.z - a.z * b.y, a.z * b.x - a.x * b.z, a.x * b.y - a.y * b.x⟩

/-- Exact-rational quaternion, modelling `THREE.Quaternion`. -/
structure Quat where
  x : ℚ
  y : ℚ
  z : ℚ
  w : ℚ
deriving DecidableEq

/-- Model of `THREE.Vector3.applyQuaternion`: rotate `v` by `q` using the
standard `v + 2 w (qv × v) + 2 qv × (qv × v)` expansion (three.js
computes `t = 2 qv × v; v + w t + qv × t`). -/
def applyQuaternion (v : Vec3) (q : Quat) : Vec3 :=
  let qv : Vec3 := ⟨q.x, q.y, q.z⟩
  let t : Vec3 := Vec3.smul 2 (Vec3.cross qv v)
  Vec3.add (Vec3.add v (Vec3.smul q.w t)) (Vec3.cross qv t)

/-- A top-level scene-graph child.  `isMesh` / `isObject3D` model the
outcomes of the two `instanceof` tests in `getCollideableObjects`
(`child instanceof THREE.Mesh || child instanceof THREE.Object3D`);
`pts` is the collision geometry of the node together with all its
descendants (the probe intersects recursively), abstracted as the set of
points a ray can hit. -/
structure SceneNode where
  isMesh : Bool
  isObject3D : Bool
  pts : List Vec3
deriving DecidableEq

/-- Model of `getCollideableObjects`: filter the scene children by
`child instanceof THREE.Mesh || child instanceof THREE.Object3D`. -/
def getCollideableObjects (children : List SceneNode) : List SceneNode :=
  children.filter (fun child => child.isMesh || child.isObject3D)

/-- Ray parameter of a candidate point: solve `origin + t * dir = p`
using the first nonzero coordinate of `dir`; `none` for a zero-length
direction. -/
def rayParam (origin dir p : Vec3) : Option ℚ :=
  if dir.x ≠ 0 then some ((p.x - origin.x) / dir.x)
  else if dir.y ≠ 0 then some ((p.y - origin.y) / dir.y)
  else if dir.z ≠ 0 then some ((p.z - origin.z) / dir.z)
  else none

/-- Modelled from the spec: the three.js `Raycaster` itself is external
library code.  Per the probe contract in the spec, a collidable point is hit
iff it lies on the ray at a distance within `[near, far]`, and a
zero-length direction vector yields no intersections. -/
def rayHitsPoint (origin dir : Vec3) (near far : ℚ) (p : Vec3) : Bool :=
  match rayParam origin dir p with
  | none => false
  | some t =>
      decide (Vec3.add origin (Vec3.smul t dir) = p) &&
      decide (near ≤ t) && decide (t ≤ far)

/-- Modelled from the spec: `raycaster.intersectObjects(objs, true)`
returns all intersections across the objects and their descendants; we
count them. -/
def countIntersections (origin dir : Vec3) (near far : ℚ)
    (objs : List SceneNode) : ℕ :=
  ((objs.map SceneNode.pts).flatten.filter (rayHitsPoint origin dir near far)).length

/-- The data the look-target is recomputed from each frame in
`rotateView`: the (just-updated) `lat`, `theta` and the camera position.
The stored `this.target` vector is overwritten in full every call, so we
represent it by these parameters; `targetOf` gives the actual point. -/
structure TSnap where
  lat : ℚ
  theta : ℚ
  pos : Vec3
deriving DecidableEq

/-- Controller state: the `THREE.KeyControls` instance fields together
with the camera handle it mutates (position + quaternion). -/
structure State where
  movementSpeed : ℚ
  lookSpeed : ℚ
  lookVertical : Bool
  invertVertical : Bool
  collisionMargin : ℚ
  lat : ℚ
  theta : ℚ
  phiDeg : ℚ
  target : TSnap
  pos : Vec3
  quat : Quat
  translateForward : Bool
  translateBackward : Bool
  translateLeft : Bool
  translateRight : Bool
  yawLeft : Bool
  yawRight : Bool
  pitchUp : Bool
  pitchDown : Bool
  freeze : Bool
deriving DecidableEq

/-- Forward vector `new THREE.Vector3(0, 0, -1).applyQuaternion(camera.quaternion)`:
the camera forward direction in world space. -/
def cameraDir (s : State) : Vec3 := applyQuaternion ⟨0, 0, -1⟩ s.quat

/-- The probe direction used by `translateViewX`:
`right ? cameraDirVector.clone().cross(upVector)
       : upVector.clone().cross(cameraDirVector)`. -/
def xDirection (s : State) (right : Bool) : Vec3 :=
  if right then Vec3.cross (cameraDir s) ⟨0, 1, 0⟩
  else Vec3.cross ⟨0, 1, 0⟩ (cameraDir s)

/-- Model of `translateViewZ(forward, units)`: probe along the (possibly negated)
forward vector with near `0` and far `units + collisionMargin`; if no
intersections, `camera.translateZ((forward ? -1 : 1) * units)`, which in
three.js moves the position by that signed distance along the local Z
axis `(0,0,1)` rotated into world space. -/
def translateViewZ (scn : List SceneNode) (forward : Bool) (units : ℚ)
    (s : State) : State :=
  let modelObjects := getCollideableObjects scn
  let directionVector :=
    if forward then cameraDir s else Vec3.smul (-1) (cameraDir s)
  let intersections :=
    countIntersections s.pos directionVector 0 (units + s.collisionMargin)
      modelObjects
  let moved := Vec3.add s.pos
    (Vec3.smul ((if forward then (-1 : ℚ) else 1) * units)
      (applyQuaternion ⟨0, 0, 1⟩ s.quat))
  if intersections < 1 then { s with pos := moved } else s

/-- Model of `translateViewX(right, units)`: probe along the cross-product
direction with near `0` and far `units + collisionMargin`; if no
intersections, `camera.translateX((right ? 1 : -1) * units)`. -/
def translateViewX (scn : List SceneNode) (right : Bool) (units : ℚ)
    (s : State) : State :=
  let modelObjects := getCollideableObjects scn
  let directionVector := xDirection s right
  let intersections :=
    countIntersections s.pos directionVector 0 (units + s.collisionMargin)
      modelObjects
  let moved := Vec3.add s.pos
    (Vec3.smul ((if right then (1 : ℚ) else -1) * units)
      (applyQuaternion ⟨1, 0, 0⟩ s.quat))
  if intersections < 1 then { s with pos := moved } else s

/-- Model of `translateView(timeDelta)`: dispatch the four flag-gated translation
attempts, each seeing the state left by the previous one. -/
def translateView (scn : List SceneNode) (timeDelta : ℚ) (s : State) : State :=
  let translationSpeed := timeDelta * s.movementSpeed
  let s1 := if s.translateForward then translateViewZ scn true translationSpeed s else s
  let s2 := if s.translateBackward then translateViewZ scn false translationSpeed s1 else s1
  let s3 := if s.translateLeft then translateViewX scn false translationSpeed s2 else s2
  if s.translateRight then translateViewX scn true translationSpeed s3 else s3

/-- Model of `rotateView(timeDelta)`: stepwise yaw by `lookSpeed` (not scaled by
`timeDelta`), optional pitch by `±0.5` degrees on `lat` (sign from
`invertVertical`), clamp `lat` to `[-89, 89]`, recompute
`phi = degToRad(90 - lat)` (stored here in degrees as `phiDeg`),
recompute the look-target from the new `lat`/`theta` and the camera
position, and `camera.lookAt(target)` — the latter an external camera
operation abstracted as `lookAtQ`. -/
def rotateView (lookAtQ : TSnap → Quat) (timeDelta : ℚ) (s : State) : State :=
  let theta1 := if s.yawLeft then s.theta - s.lookSpeed else s.theta
  let theta2 := if s.yawRight then theta1 + s.lookSpeed else theta1
  let lat1 :=
    if s.lookVertical then
      let invertfactor : ℚ := if s.invertVertical then 1 else -1
      let a := if s.pitchUp then s.lat + invertfactor * (1 / 2) else s.lat
      if s.pitchDown then a - invertfactor * (1 / 2) else a
    else s.lat
  let lat2 := max (-89) (min 89 lat1)
  let tsnap : TSnap := ⟨lat2, theta2, s.pos⟩
  { s with theta := theta2, lat := lat2, phiDeg := 90 - lat2,
           target := tsnap, quat := lookAtQ tsnap }

/-- Model of `updateView(timeDelta)`: translate (collision-gated) then rotate
(unconditional), in that order. -/
def updateView (lookAtQ : TSnap → Quat) (scn : List SceneNode)
    (timeDelta : ℚ) (s : State) : State :=
  rotateView lookAtQ timeDelta (translateView scn timeDelta s)

/-- Model of `onKeyDown` of the collision-enabled `KeyControls` revision. -/
def onKeyDown (keyCode : ℕ) (s : State) : State :=
  match keyCode with
  | 87 => { s with translateForward := true }
  | 65 => { s with translateLeft := true }
  | 83 => { s with translateBackward := true }
  | 68 => { s with translateRight := true }
  | 38 => { s with translateForward := true }
  | 40 => { s with translateBackward := true }
  | 37 => { s with yawLeft := true }
  | 81 => { s with yawLeft := true }
  | 39 => { s with yawRight := true }
  | 69 => { s with yawRight := true }
  | 27 => { s with freeze := !s.freeze }
  | _ => s

/-- Model of `onKeyUp` of the collision-enabled `KeyControls` revision.  Note
that key code 27 toggles `freeze` here as well. -/
def onKeyUp (keyCode : ℕ) (s : State) : State :=
  match keyCode with
  | 87 => { s with translateForward := false }
  | 65 => { s with translateLeft := false }
  | 83 => { s with translateBackward := false }
  | 68 => { s with translateRight := false }
  | 38 => { s with translateForward := false }
  | 40 => { s with translateBackward := false }
  | 37 => { s with yawLeft := false }
  | 81 => { s with yawLeft := false }
  | 39 => { s with yawRight := false }
  | 69 => { s with yawRight := false }
  | 27 => { s with freeze := !s.freeze }
  | _ => s

/-- Model of `THREE.Math.degToRad`. -/
noncomputable def degToRad (d : ℚ) : ℝ := (d : ℝ) * Real.pi / 180

/-- The look-target point recomputed each `rotateView`: 100 units from
the camera position along the spherical direction given by
`phi = degToRad(90 - lat)` and `theta`. -/
noncomputable def targetOf (t : TSnap) : ℝ × ℝ × ℝ :=
  let phi := degToRad (90 - t.lat)
  let theta : ℝ := (t.theta : ℝ)
  ((t.pos.x : ℝ) + 100 * Real.sin phi * Real.cos theta,
   (t.pos.y : ℝ) + 100 * Real.cos phi,
   (t.pos.z : ℝ) + 100 * Real.sin phi * Real.sin theta)

/-- A concrete controller state used to instantiate universally
quantified theorems: the field values of a freshly constructed
`KeyControls` as configured in `init()` of `main.js`. -/
def sampleState : State where
  movementSpeed := 100
  lookSpeed := 1 / 20
  lookVertical := true
  invertVertical := true
  collisionMargin := 5
  lat := 0
  theta := 0
  phiDeg := 0
  target := ⟨0, 0, Vec3.zero⟩
  pos := ⟨0, 55, 0⟩
  quat := ⟨0, 0, 0, 1⟩
  translateForward := false
  translateBackward := false
  translateLeft := false
  translateRight := false
  yawLeft := false
  yawRight := false
  pitchUp := false
  pitchDown := false
  freeze := false

/-- Relation stating that `t` differs from `s` at most in the camera position. -/
def posOnly (s t : State) : Prop := t = { s with pos := t.pos }

lemma ite_posOnly (c : Prop) [Decidable c] (s : State) (p : Vec3) :
    posOnly s (if c then { s with pos := p } else s) := by
  by_cases h : c
  · simp only [posOnly, if_pos h]
  · simp only [posOnly, if_neg h]

lemma posOnly_trans {s t u : State} (h1 : posOnly s t) (h2 : posOnly t u) :
    posOnly s u := by
  unfold posOnly at h1 h2 ⊢
  exact h2.trans (by rw [h1])

lemma translateViewZ_posOnly (scn : List SceneNode) (f : Bool) (u : ℚ)
    (s : State) : posOnly s (translateViewZ scn f u s) :=
  ite_posOnly _ s _

lemma translateViewX_posOnly (scn : List SceneNode) (r : Bool) (u : ℚ)
    (s : State) : posOnly s (translateViewX scn r u s) :=
  ite_posOnly _ s _

lemma posOnly_rfl (s : State) : posOnly s s := rfl

lemma posOnly_ite_comp {s t : State} (c : Prop) [Decidable c]
    (f : State → State) (hf : posOnly t (f t)) (h : posOnly s t) :
    posOnly s (if c then f t else t) := by
  by_cases hc : c
  · rw [if_pos hc]; exact posOnly_trans h hf
  · rw [if_neg hc]; exact h

lemma translateView_posOnly (scn : List SceneNode) (dt : ℚ) (s : State) :
    posOnly s (translateView scn dt s) := by
  simp only [translateView]
  refine posOnly_ite_comp _ (translateViewX scn true (dt * s.movementSpeed))
    (translateViewX_posOnly _ _ _ _) ?_
  refine posOnly_ite_comp _ (translateViewX scn false (dt * s.movementSpeed))
    (translateViewX_posOnly _ _ _ _) ?_
  refine posOnly_ite_comp _ (translateViewZ scn false (dt * s.movementSpeed))
    (translateViewZ_posOnly _ _ _ _) ?_
  refine posOnly_ite_comp _ (translateViewZ scn true (dt * s.movementSpeed))
    (translateViewZ_posOnly _ _ _ _) ?_
  exact posOnly_rfl s

lemma posOnly_theta {s t : State} (h : posOnly s t) : t.theta = s.theta := by
  rw [h]

lemma posOnly_lat {s t : State} (h : posOnly s t) : t.lat = s.lat := by
  rw [h]

lemma posOnly_lookSpeed {s t : State} (h : posOnly s t) :
    t.lookSpeed = s.lookSpeed := by
  rw [h]

lemma posOnly_yawLeft {s t : State} (h : posOnly s t) :
    t.yawLeft = s.yawLeft := by
  rw [h]

lemma posOnly_yawRight {s t : State} (h : posOnly s t) :
    t.yawRight = s.yawRight := by
  rw [h]

/-- C10: For every invocation, `rotateView` leaves the camera position
unchanged — it mutates only `lat`, `phi`, `theta`, the look-target and
the camera orientation — and `translateViewZ` / `translateViewX` mutate
only the camera position, leaving `lat`, `phi`, `theta` and the
look-target (and everything else) unchanged. -/
theorem frame_effects_separation (lookAtQ : TSnap → Quat) (dt : ℚ)
    (scn : List SceneNode) (u : ℚ) (f r : Bool) (s : State) :
    (rotateView lookAtQ dt s =
      { s with lat := (rotateView lookAtQ dt s).lat,
               theta := (rotateView lookAtQ dt s).theta,
               phiDeg := (rotateView lookAtQ dt s).phiDeg,
               target := (rotateView lookAtQ dt s).target,
               quat := (rotateView lookAtQ dt s).quat }) ∧
    (translateViewZ scn f u s = { s with pos := (translateViewZ scn f u s).pos }) ∧
    (translateViewX scn r u s = { s with pos := (translateViewX scn r u s).pos }) := by
  exact ⟨rfl, translateViewZ_posOnly scn f u s, translateViewX_posOnly scn r u s⟩

/-- C7: every key-up event on a key that maps to a translation flag
(W, A, S, D, and the arrow keys reused for forward/backward) sets that
flag to false afterwards, whatever the rest of the state — in
particular even if another key mapped to the same flag is still held. -/
theorem keyup_clears_translation_flags (s : State) :
    (onKeyUp 87 s).translateForward = false ∧
    (onKeyUp 65 s).translateLeft = false ∧
    (onKeyUp 83 s).translateBackward = false ∧
    (onKeyUp 68 s).translateRight = false ∧
    (onKeyUp 38 s).translateForward = false ∧
    (onKeyUp 40 s).translateBackward = false :=
  ⟨rfl, rfl, rfl, rfl, rfl, rfl⟩

/-- C5 (counterexample): the key-up event of key code 27 does toggle
`freeze` (contrary to the claim that only key-down toggles it), so a
full press-and-release toggles the flag twice, not exactly once. -/
theorem freeze_keyup_toggle_counterexample :
    (onKeyUp 27 sampleState).freeze = true ∧
    sampleState.freeze = false ∧
    (onKeyUp 27 (onKeyDown 27 sampleState)).freeze = sampleState.freeze :=
  ⟨rfl, rfl, rfl⟩

/-- C5 (amended): the `freeze` flag is toggled by BOTH the key-down and
the key-up events of key code 27, each event toggling it exactly once;
hence one full press-and-release toggles it twice and restores the
prior state. -/
theorem freeze_toggled_on_down_and_up (s : State) :
    (onKeyDown 27 s).freeze = !s.freeze ∧
    (onKeyUp 27 s).freeze = !s.freeze ∧
    (onKeyUp 27 (onKeyDown 27 s)).freeze = s.freeze := by
  refine ⟨rfl, rfl, ?_⟩
  simp only [onKeyDown, onKeyUp, Bool.not_not]

/-- C9: the collidable-set filter is vacuous — since in three.js every
`Mesh` is an instance of `Object3D` and everything added to a scene is
an `Object3D` (the hypothesis), the predicate
`isMesh || isObject3D` holds for every child and
`getCollideableObjects` returns the full list of scene children. -/
theorem collideable_filter_vacuous (children : List SceneNode)
    (h : ∀ c ∈ children, c.isObject3D = true) :
    (∀ c ∈ children, (c.isMesh || c.isObject3D) = true) ∧
    getCollideableObjects children = children := by
  constructor
  · intro c hc
    simp [h c hc]
  · unfold getCollideableObjects
    apply List.filter_eq_self.mpr
    intro c hc
    simp [h c hc]

/-- C9 witness: a scene with a mesh, a light-like plain `Object3D` and
a camera-like `Object3D` — the filter keeps all of them. -/
theorem collideable_filter_vacuous_witness :
    getCollideableObjects
      [⟨true, true, [⟨1, 0, 0⟩]⟩, ⟨false, true, []⟩, ⟨false, true, []⟩] =
      [⟨true, true, [⟨1, 0, 0⟩]⟩, ⟨false, true, []⟩, ⟨false, true, []⟩] :=
  (collideable_filter_vacuous
    [⟨true, true, [⟨1, 0, 0⟩]⟩, ⟨false, true, []⟩, ⟨false, true, []⟩]
    (by decide)).2

/-- C6: in every `updateView(dt)` the yaw flags adjust `theta` by
exactly `∓lookSpeed` as a constant per-frame step — the right-hand side
mentions neither `dt` nor the scene, so the step is independent of
elapsed time and never gated by any collision probe — and the
look-target recomputation and `lookAt` reorientation are applied
unconditionally: the final orientation is always `lookAtQ` of the
recomputed target. -/
theorem yaw_step_unconditional (lookAtQ : TSnap → Quat)
    (scn : List SceneNode) (dt : ℚ) (s : State) :
    (updateView lookAtQ scn dt s).theta =
      (if s.yawLeft then s.theta - s.lookSpeed else s.theta) +
      (if s.yawRight then s.lookSpeed else 0) ∧
    (updateView lookAtQ scn dt s).target =
      ⟨(updateView lookAtQ scn dt s).lat, (updateView lookAtQ scn dt s).theta,
       (updateView lookAtQ scn dt s).pos⟩ ∧
    (updateView lookAtQ scn dt s).quat =
      lookAtQ (updateView lookAtQ scn dt s).target := by
  have ht := translateView_posOnly scn dt s
  refine ⟨?_, rfl, rfl⟩
  simp only [updateView, rotateView]
  rw [posOnly_yawLeft ht, posOnly_yawRight ht, posOnly_theta ht,
    posOnly_lookSpeed ht]
  by_cases hr : s.yawRight = true <;> by_cases hl : s.yawLeft = true <;>
    simp [hr, hl]

lemma degToRad_le_degToRad {a b : ℚ} (h : a ≤ b) : degToRad a ≤ degToRad b := by
  unfold degToRad
  have hpi : (0 : ℝ) ≤ Real.pi := le_of_lt Real.pi_pos
  have hab : (a : ℝ) ≤ (b : ℝ) := by exact_mod_cast h
  have := mul_le_mul_of_nonneg_right hab hpi
  linarith

lemma degToRad_lt_degToRad {a b : ℚ} (h : a < b) : degToRad a < degToRad b := by
  unfold degToRad
  have hpi : (0 : ℝ) < Real.pi := Real.pi_pos
  have hab : (a : ℝ) < (b : ℝ) := by exact_mod_cast h
  have := mul_lt_mul_of_pos_right hab hpi
  linarith

lemma degToRad_one_pos : (0 : ℝ) < degToRad 1 := by
  unfold degToRad
  positivity

lemma degToRad_onehundredeighty : degToRad 180 = Real.pi := by
  unfold degToRad
  push_cast
  ring

/-- C3: after every invocation of `updateView` — whatever pitch/yaw
flags were set, hence also after any number of consecutive
invocations — the state satisfies `lat ∈ [-89, 89]` and
`phiDeg = 90 - lat` (i.e. `phi = degToRad(90 - lat)`), so
`phi ∈ [degToRad 1, degToRad 179]` and `phi` is never exactly `0`
or `π`. -/
theorem lat_clamp_phi_invariant (lookAtQ : TSnap → Quat)
    (scn : List SceneNode) (dt : ℚ) (s : State) :
    -89 ≤ (updateView lookAtQ scn dt s).lat ∧
    (updateView lookAtQ scn dt s).lat ≤ 89 ∧
    (updateView lookAtQ scn dt s).phiDeg =
      90 - (updateView lookAtQ scn dt s).lat ∧
    degToRad 1 ≤ degToRad (updateView lookAtQ scn dt s).phiDeg ∧
    degToRad (updateView lookAtQ scn dt s).phiDeg ≤ degToRad 179 ∧
    degToRad (updateView lookAtQ scn dt s).phiDeg ≠ 0 ∧
    degToRad (updateView lookAtQ scn dt s).phiDeg ≠ Real.pi := by
  have hlow : -89 ≤ (updateView lookAtQ scn dt s).lat := by
    simp only [updateView, rotateView]
    exact le_max_left _ _
  have hhigh : (updateView lookAtQ scn dt s).lat ≤ 89 := by
    simp only [updateView, rotateView]
    exact max_le (by norm_num) (min_le_left _ _)
  have hphi : (updateView lookAtQ scn dt s).phiDeg =
      90 - (updateView lookAtQ scn dt s).lat := rfl
  have h1 : (1 : ℚ) ≤ (updateView lookAtQ scn dt s).phiDeg := by
    rw [hphi]; linarith
  have h179 : (updateView lookAtQ scn dt s).phiDeg ≤ 179 := by
    rw [hphi]; linarith
  refine ⟨hlow, hhigh, hphi, degToRad_le_degToRad h1, degToRad_le_degToRad h179,
    ?_, ?_⟩
  · have : (0 : ℝ) < degToRad (updateView lookAtQ scn dt s).phiDeg :=
      lt_of_lt_of_le degToRad_one_pos (degToRad_le_degToRad h1)
    exact ne_of_gt this
  · have h180 : (updateView lookAtQ scn dt s).phiDeg < 180 := by
      rw [hphi]; linarith
    have : degToRad (updateView lookAtQ scn dt s).phiDeg < Real.pi := by
      rw [← degToRad_onehundredeighty]
      exact degToRad_lt_degToRad h180
    exact ne_of_lt this

/-- C1: every attempted translation probes with a ray from the current
camera position along the requested world-space direction, with near
distance `0` and far distance `units + collisionMargin`, against the
collidable set; with zero intersections the camera moves by exactly the
requested signed distance along the corresponding local axis, and with
one or more intersections the position is left unchanged — never
clamped or partially applied. -/
theorem probe_gates_translation (scn : List SceneNode) (u : ℚ) (s : State) :
    ((translateViewZ scn true u s).pos =
      if countIntersections s.pos (cameraDir s) 0 (u + s.collisionMargin)
          (getCollideableObjects scn) = 0
      then Vec3.add s.pos (Vec3.smul (-u) (applyQuaternion ⟨0, 0, 1⟩ s.quat))
      else s.pos) ∧
    ((translateViewZ scn false u s).pos =
      if countIntersections s.pos (Vec3.smul (-1) (cameraDir s)) 0
          (u + s.collisionMargin) (getCollideableObjects scn) = 0
      then Vec3.add s.pos (Vec3.smul u (applyQuaternion ⟨0, 0, 1⟩ s.quat))
      else s.pos) ∧
    ((translateViewX scn true u s).pos =
      if countIntersections s.pos (Vec3.cross (cameraDir s) ⟨0, 1, 0⟩) 0
          (u + s.collisionMargin) (getCollideableObjects scn) = 0
      then Vec3.add s.pos (Vec3.smul u (applyQuaternion ⟨1, 0, 0⟩ s.quat))
      else s.pos) ∧
    ((translateViewX scn false u s).pos =
      if countIntersections s.pos (Vec3.cross ⟨0, 1, 0⟩ (cameraDir s)) 0
          (u + s.collisionMargin) (getCollideableObjects scn) = 0
      then Vec3.add s.pos (Vec3.smul (-u) (applyQuaternion ⟨1, 0, 0⟩ s.quat))
      else s.pos) := by
  refine ⟨?_, ?_, ?_, ?_⟩ <;>
    simp only [translateViewZ, translateViewX, xDirection, Nat.lt_one_iff,
      if_true, if_false, Bool.false_eq_true, ite_true, ite_false] <;>
    split <;>
    simp_all [Vec3.smul, Vec3.add, neg_one_mul, one_mul]

/-- C4: calling `updateView(0)` with all eight motion flags false leaves
the camera position unchanged, and the look-target recomputed by the
call equals the target of the previous frame for the same `lat`, `theta` and
camera position (the target is a pure function of those; the hypotheses
say the state is as a previous frame left it: `lat` already clamped and
the stored target already the recomputation from the current
`lat`/`theta`/position). -/
theorem updateView_zero_no_flags_idempotent (lookAtQ : TSnap → Quat)
    (scn : List SceneNode) (s : State)
    (hf : s.translateForward = false) (hb : s.translateBackward = false)
    (hl : s.translateLeft = false) (hr : s.translateRight = false)
    (hyl : s.yawLeft = false) (hyr : s.yawRight = false)
    (hpu : s.pitchUp = false) (hpd : s.pitchDown = false)
    (hlow : -89 ≤ s.lat) (hhigh : s.lat ≤ 89)
    (htgt : s.target = ⟨s.lat, s.theta, s.pos⟩) :
    (updateView lookAtQ scn 0 s).pos = s.pos ∧
    (updateView lookAtQ scn 0 s).target = s.target ∧
    targetOf (updateView lookAtQ scn 0 s).target = targetOf s.target := by
  have htv : translateView scn 0 s = s := by
    simp only [translateView, hf, hb, hl, hr, Bool.false_eq_true, if_false]
  have hclamp : max (-89) (min 89 s.lat) = s.lat := by
    rw [min_eq_right hhigh, max_eq_right hlow]
  have hupd : updateView lookAtQ scn 0 s =
      { s with phiDeg := 90 - s.lat, target := ⟨s.lat, s.theta, s.pos⟩,
               quat := lookAtQ ⟨s.lat, s.theta, s.pos⟩ } := by
    simp only [updateView, htv, rotateView, hyl, hyr, hpu, hpd,
      Bool.false_eq_true, if_false, ite_self, hclamp]
  rw [hupd, htgt]
  exact ⟨rfl, rfl, rfl⟩

/-- C4 witness: the freshly configured controller state (with its
target snapshot consistent with `lat = 0`, `theta = 0` and the initial
camera position) is left in place by `updateView(0)`. -/
theorem updateView_zero_no_flags_idempotent_witness :
    (updateView (fun _ => ⟨0, 0, 0, 1⟩) []
        0 { sampleState with target := ⟨0, 0, ⟨0, 55, 0⟩⟩ }).pos =
      (⟨0, 55, 0⟩ : Vec3) ∧
    (updateView (fun _ => ⟨0, 0, 0, 1⟩) []
        0 { sampleState with target := ⟨0, 0, ⟨0, 55, 0⟩⟩ }).target =
      (⟨0, 0, ⟨0, 55, 0⟩⟩ : TSnap) := by
  have h := updateView_zero_no_flags_idempotent (fun _ => ⟨0, 0, 0, 1⟩) []
    { sampleState with target := ⟨0, 0, ⟨0, 55, 0⟩⟩ }
    rfl rfl rfl rfl rfl rfl rfl rfl (by decide) (by decide) rfl
  exact ⟨h.1, h.2.1⟩

lemma rayHitsPoint_zero_dir (o p : Vec3) (near far : ℚ) :
    rayHitsPoint o Vec3.zero near far p = false := by
  simp [rayHitsPoint, rayParam, Vec3.zero]

lemma countIntersections_zero_dir (o : Vec3) (near far : ℚ)
    (objs : List SceneNode) :
    countIntersections o Vec3.zero near far objs = 0 := by
  unfold countIntersections
  have h : (rayHitsPoint o Vec3.zero near far) = fun _ => false :=
    funext (fun p => rayHitsPoint_zero_dir o p near far)
  rw [h]
  simp only [List.filter_false, List.length_nil]

lemma rayParam_on_ray (o dir : Vec3) (t : ℚ) (hd : dir ≠ Vec3.zero) :
    rayParam o dir (Vec3.add o (Vec3.smul t dir)) = some t := by
  obtain ⟨ox, oy, oz⟩ := o
  obtain ⟨dx, dy, dz⟩ := dir
  unfold rayParam
  by_cases hx : dx = 0 <;> by_cases hy : dy = 0 <;> by_cases hz : dz = 0 <;>
    simp_all [Vec3.add, Vec3.smul, Vec3.zero]

lemma rayHitsPoint_on_ray (o dir : Vec3) (t near far : ℚ)
    (hd : dir ≠ Vec3.zero) :
    rayHitsPoint o dir near far (Vec3.add o (Vec3.smul t dir)) =
      (decide (near ≤ t) && decide (t ≤ far)) := by
  unfold rayHitsPoint
  rw [rayParam_on_ray o dir t hd]
  simp

lemma countIntersections_single (o dir : Vec3) (near far : ℚ) (p : Vec3) :
    countIntersections o dir near far
      (getCollideableObjects [⟨true, true, [p]⟩]) =
      if rayHitsPoint o dir near far p then 1 else 0 := by
  by_cases h : rayHitsPoint o dir near far p = true <;>
    simp [countIntersections, getCollideableObjects, List.filter, h]

/-- C8: degenerate probes degrade gracefully.  A zero-length direction
vector yields no intersection for any candidate point; an empty
collidable set makes every translation proceed by the full requested
distance; and whenever the direction vector computed by
`translateViewX` is zero-length (camera forward parallel to world up),
the translation still proceeds as if unobstructed, whatever the scene.
All operations are total functions: no input raises a fault. -/
theorem degenerate_probe_graceful (o p : Vec3) (near far : ℚ)
    (objs scn : List SceneNode) (s : State) (u : ℚ) (f r : Bool) :
    rayHitsPoint o Vec3.zero near far p = false ∧
    countIntersections o Vec3.zero near far objs = 0 ∧
    (translateViewZ [] f u s).pos = Vec3.add s.pos
      (Vec3.smul ((if f then (-1 : ℚ) else 1) * u)
        (applyQuaternion ⟨0, 0, 1⟩ s.quat)) ∧
    (translateViewX [] r u s).pos = Vec3.add s.pos
      (Vec3.smul ((if r then (1 : ℚ) else -1) * u)
        (applyQuaternion ⟨1, 0, 0⟩ s.quat)) ∧
    (xDirection s r = Vec3.zero →
      (translateViewX scn r u s).pos = Vec3.add s.pos
        (Vec3.smul ((if r then (1 : ℚ) else -1) * u)
          (applyQuaternion ⟨1, 0, 0⟩ s.quat))) := by
  refine ⟨rayHitsPoint_zero_dir o p near far,
    countIntersections_zero_dir o near far objs, ?_, ?_, ?_⟩
  · simp [translateViewZ, countIntersections, getCollideableObjects]
  · simp [translateViewX, countIntersections, getCollideableObjects]
  · intro hz
    simp [translateViewX, hz, countIntersections_zero_dir]

/-- C8 witness: with the camera pitched straight up (a unit quaternion
rotating local -Z onto world +Y), the right-translation probe direction
is the zero vector, and the translation proceeds even though the scene
holds a mesh at the camera position. -/
theorem degenerate_probe_graceful_witness :
    xDirection { sampleState with
      quat := ⟨1/2, 1/2, -1/2, 1/2⟩ } true = Vec3.zero ∧
    (translateViewX [⟨true, true, [⟨0, 55, 0⟩]⟩] true 10
        { sampleState with quat := ⟨1/2, 1/2, -1/2, 1/2⟩ }).pos =
      Vec3.add (⟨0, 55, 0⟩ : Vec3)
        (Vec3.smul ((if true then (1 : ℚ) else -1) * 10)
          (applyQuaternion ⟨1, 0, 0⟩ ⟨1/2, 1/2, -1/2, 1/2⟩)) := by
  have hz : xDirection { sampleState with
      quat := ⟨1/2, 1/2, -1/2, 1/2⟩ } true = Vec3.zero := by
    simp only [xDirection, cameraDir, applyQuaternion, Vec3.cross, Vec3.smul,
      Vec3.add, Vec3.zero, if_true, Vec3.mk.injEq]
    norm_num
  refine ⟨hz, ?_⟩
  exact (degenerate_probe_graceful ⟨0, 0, 0⟩ ⟨0, 0, 0⟩ 0 0 []
    [⟨true, true, [⟨0, 55, 0⟩]⟩]
    { sampleState with quat := ⟨1/2, 1/2, -1/2, 1/2⟩ } 10 true true).2.2.2.2 hz

lemma Vec3.smul_smul (a b : ℚ) (v : Vec3) :
    Vec3.smul a (Vec3.smul b v) = Vec3.smul (a * b) v := by
  simp only [Vec3.smul, Vec3.mk.injEq]
  refine ⟨by ring, by ring, by ring⟩

/-- The local Z axis rotated into world space is the negation of the
camera forward vector (`applyQuaternion` is linear in the vector). -/
lemma axisZ_neg (q : Quat) :
    applyQuaternion ⟨0, 0, 1⟩ q = Vec3.smul (-1) (applyQuaternion ⟨0, 0, -1⟩ q) := by
  simp only [applyQuaternion, Vec3.cross, Vec3.smul, Vec3.add, Vec3.mk.injEq]
  refine ⟨by ring, by ring, by ring⟩

/-- C2: with a single collidable point placed on the forward ray at
distance `units + collisionMargin + ε` (any `ε > 0`, distances measured
by the ray parameter, which is the Euclidean distance since the forward
vector has unit length), forward translation by `units` succeeds and
moves the camera the full distance; placed at
`units + collisionMargin - ε` (any `0 < ε ≤ units + collisionMargin`),
the translation is fully blocked and the position unchanged. -/
theorem forward_margin_boundary (s : State) (u ε : ℚ)
    (hd : cameraDir s ≠ Vec3.zero)
    (hunit : (cameraDir s).x ^ 2 + (cameraDir s).y ^ 2 + (cameraDir s).z ^ 2 = 1)
    (hε : 0 < ε) :
    ((translateViewZ
        [⟨true, true,
          [Vec3.add s.pos (Vec3.smul (u + s.collisionMargin + ε) (cameraDir s))]⟩]
        true u s).pos = Vec3.add s.pos (Vec3.smul u (cameraDir s))) ∧
    (ε ≤ u + s.collisionMargin →
      (translateViewZ
        [⟨true, true,
          [Vec3.add s.pos (Vec3.smul (u + s.collisionMargin - ε) (cameraDir s))]⟩]
        true u s).pos = s.pos) := by
  constructor
  · have hmiss : rayHitsPoint s.pos (cameraDir s) 0 (u + s.collisionMargin)
        (Vec3.add s.pos (Vec3.smul (u + s.collisionMargin + ε) (cameraDir s))) =
          false := by
      rw [rayHitsPoint_on_ray s.pos (cameraDir s) (u + s.collisionMargin + ε)
        0 (u + s.collisionMargin) hd]
      have hfar : ¬ (u + s.collisionMargin + ε ≤ u + s.collisionMargin) := by
        linarith
      simp [hfar]
    simp only [translateViewZ, if_true, ite_true]
    rw [countIntersections_single, hmiss]
    simp only [Bool.false_eq_true, if_false, Nat.lt_one_iff, ite_true,
      if_pos rfl]
    rw [axisZ_neg, Vec3.smul_smul]
    norm_num
    rfl
  · intro hεu
    have hhit : rayHitsPoint s.pos (cameraDir s) 0 (u + s.collisionMargin)
        (Vec3.add s.pos (Vec3.smul (u + s.collisionMargin - ε) (cameraDir s))) =
          true := by
      rw [rayHitsPoint_on_ray s.pos (cameraDir s) (u + s.collisionMargin - ε)
        0 (u + s.collisionMargin) hd]
      have h1 : (0 : ℚ) ≤ u + s.collisionMargin - ε := by linarith
      have h2 : u + s.collisionMargin - ε ≤ u + s.collisionMargin := by linarith
      simp [h1, h2]
    simp only [translateViewZ, if_true, ite_true]
    rw [countIntersections_single, hhit]
    simp

/-- C2 witness: the freshly configured controller (identity camera
orientation, `collisionMargin = 5`) moving forward 10 units with the
obstacle at 16 units succeeds, and with the obstacle at 14 units is
fully blocked. -/
theorem forward_margin_boundary_witness :
    ((translateViewZ
        [⟨true, true,
          [Vec3.add sampleState.pos
            (Vec3.smul (10 + sampleState.collisionMargin + 1)
              (cameraDir sampleState))]⟩]
        true 10 sampleState).pos =
      Vec3.add sampleState.pos (Vec3.smul 10 (cameraDir sampleState))) ∧
    ((translateViewZ
        [⟨true, true,
          [Vec3.add sampleState.pos
            (Vec3.smul (10 + sampleState.collisionMargin - 1)
              (cameraDir sampleState))]⟩]
        true 10 sampleState).pos = sampleState.pos) := by
  have hd : cameraDir sampleState ≠ Vec3.zero := by
    simp only [cameraDir, applyQuaternion, Vec3.cross, Vec3.smul, Vec3.add,
      Vec3.zero, sampleState, ne_eq, Vec3.mk.injEq]
    norm_num
  have hunit : (cameraDir sampleState).x ^ 2 + (cameraDir sampleState).y ^ 2 +
      (cameraDir sampleState).z ^ 2 = 1 := by
    simp only [cameraDir, applyQuaternion, Vec3.cross, Vec3.smul, Vec3.add,
      sampleState]
    norm_num
  have h := forward_margin_boundary sampleState 10 1 hd hunit (by norm_num)
  exact ⟨h.1, h.2 (by norm_num [sampleState])⟩
